import Mathlib

/-!
Shallow embedding of the consent and address-resolution engine of
`seed-identity-store` (Django app `identities`).

JSON documents that the source manipulates (`Identity.details`, its
`addresses` sub-document, and per-address metadata objects) are embedded as
association lists, which preserve Python dict insertion order.  Python dict
reads (`d[k]`, `k in d`) become `getKey`; Python dict assignment (`d[k] = v`,
which overwrites in place keeping the key's position, or appends a fresh key)
becomes `setKey`.
-/

set_option synthInstance.maxSize 512

namespace SeedIdStore

/-- First value stored under key `k`, like a Python dict read (`d.get(k)`). -/
def getKey {α : Type} : List (String × α) → String → Option α
  | [], _ => none
  | (k', v) :: rest, k => if k' = k then some v else getKey rest k

/-- Python dict assignment `d[k] = v`: overwrite the existing entry in place
(keeping its position), else append the new key at the end. -/
def setKey {α : Type} : List (String × α) → String → α → List (String × α)
  | [], k, v => [(k, v)]
  | (k', v') :: rest, k, v =>
    if k' = k then (k, v) :: rest else (k', v') :: setKey rest k v

/-- Per-address metadata object: optional boolean flags such as
`default`, `inactive`, `optedout` (models.py / spec §3). -/
abbrev Meta := List (String × Bool)

/-- One address-type bucket: address value → metadata. -/
abbrev Bucket := List (String × Meta)

/-- `details["addresses"]`: address type → bucket. -/
abbrev Addresses := List (String × Bucket)

/-- A top-level value of the open-schema `details` document: either the
nested `addresses` document or a scalar (string) detail such as `name`. -/
inductive DValue : Type where
  | str (s : String)
  | addrs (a : Addresses)
  deriving DecidableEq, Repr

/-- The `details` JSON document of an identity (open key set). -/
abbrev Details := List (String × DValue)

/-- models.py `Identity`: only the `details` document matters to the core. -/
structure Identity : Type where
  details : Details
  deriving DecidableEq, Repr

/-- Python truthiness test `key in metadata and metadata[key]`
(absence of a flag means false). -/
def flagSet (m : Meta) (k : String) : Bool :=
  match getKey m k with
  | some b => b
  | none => false

/-- `identity.details["addresses"]` when the key is present and holds the
nested document (`"addresses" in identity.details` guard in views.py). -/
def getAddresses (d : Details) : Option Addresses :=
  match getKey d "addresses" with
  | some (DValue.addrs a) => some a
  | _ => none

/-- `identity.details["addresses"][t]` as a total read. -/
def bucketAt (d : Details) (t : String) : Option Bucket :=
  match getAddresses d with
  | some a => getKey a t
  | none => none

/-- `identity.details["addresses"][t][a]` as a total read. -/
def metaAt (d : Details) (t a : String) : Option Meta :=
  match bucketAt d t with
  | some b => getKey b a
  | none => none

/-- Inner loop of `IdentityAddresses.get_queryset` (views.py lines 196-211)
over one bucket's entries.  `n` is `len(entries.keys())`, computed on the
whole bucket.  An entry flagged `optedout` executes `break`, ending the scan
of the bucket; `want_default` is whether `"default"` was in the query params. -/
def resolveEntries (want_default : Bool) (n : Nat) : Bucket → List String
  | [] => []
  | (address, metadata) :: rest =>
    if flagSet metadata "optedout" then []
    else
      (if want_default then
        if n > 1 then
          if flagSet metadata "default" then [address] else []
        else [address]
      else [address]) ++ resolveEntries want_default n rest

/-- One bucket's contribution to the response. -/
def resolveBucket (want_default : Bool) (entries : Bucket) : List String :=
  resolveEntries want_default entries.length entries

/-- `IdentityAddresses.get_queryset` (views.py lines 177-211) for a given
identity: keep only the bucket(s) whose address type matches (the source pops
all non-matching types), then scan entries, skipping the rest of a bucket at
the first `optedout` entry and applying the default filter when requested. -/
def resolveAddresses (identity : Identity) (address_type : String)
    (want_default : Bool) : List String :=
  match getAddresses identity.details with
  | none => []
  | some addresses =>
    ((addresses.filter (fun b => decide (b.1 = address_type))).map
      (fun b => resolveBucket want_default b.2)).flatten

/-- Failure of `Identity.objects.get(id=identity_id)`: the `NotFound` error
of the spec's taxonomy (§7), raised as `Identity.DoesNotExist`. -/
inductive DBError : Type where
  | doesNotExist
  deriving DecidableEq, Repr

/-- The identity store: id → details document. -/
abbrev Store := List (String × Details)

/-- `Identity.objects.get(id=identity_id)` as a total read over the store. -/
def getIdentity (store : Store) (identity_id : String) : Option Details :=
  getKey store identity_id

/-- Entry point of `IdentityAddresses.get_queryset`: look the identity up by
id (raising `DoesNotExist` when absent) and resolve its addresses. -/
def identityAddressesList (store : Store) (identity_id address_type : String)
    (want_default : Bool) : Except DBError (List String) :=
  match getIdentity store identity_id with
  | none => Except.error DBError.doesNotExist
  | some d => Except.ok (resolveAddresses ⟨d⟩ address_type want_default)

/-- The entries of a bucket that are not flagged `optedout` — the
"surviving" entries in the words of the spec (§4.3 step 2). -/
def nonOptedOut (entries : Bucket) : Bucket :=
  entries.filter (fun e => !flagSet e.2 "optedout")

/-! ## Identity Locator (models.py `IdentityManager.filter_by_addr` and the
opt-in / opt-out creation views that call it) -/

/-- Postgres jsonb containment `details->'addresses' @> '"addr"'` used by
`filter_by_addr`'s `details__addresses__contains=addr`: the addresses value
is a JSON object and a JSON object never contains a bare string fragment, so
the test is false for every identity. -/
def addressesContainsFragment (_a : Addresses) (_addr : String) : Bool :=
  false

/-- models.py lines 10-12, `IdentityManager.filter_by_addr(self, addr)`:
`self.filter(details__addresses__contains=addr)` where `addr` is a single
`"addr_type:addr"` string.  Identities without an `addresses` object are
excluded by the containment lookup. -/
def filter_by_addr (store : Store) (addr : String) : Store :=
  store.filter (fun i =>
    match getAddresses i.2 with
    | some a => addressesContainsFragment a addr
    | none => false)

/-- A Python runtime error escaping a view method. -/
inductive PyErr : Type where
  | typeError
  deriving DecidableEq, Repr

/-- A Python call of `Identity.objects.filter_by_addr` on a positional
argument list: the def in models.py takes exactly one argument besides
`self`, so any other arity raises `TypeError`. -/
def callFilterByAddr (store : Store) (args : List String) :
    Except PyErr Store :=
  match args with
  | [addr] => Except.ok (filter_by_addr store addr)
  | _ => Except.error PyErr.typeError

/-- Validated data of an OptIn / OptOut creation request, as far as the
locate logic reads it: `identity = none` models `"identity" not in data or
data["identity"] is None`. -/
structure EventData : Type where
  identity : Option String
  address_type : String
  address : String
  deriving DecidableEq, Repr

/-- Outcome of `perform_create`: the event row is saved bound to an identity
id (or to none), or a `ValidationError` is raised, or a Python error
escapes. -/
inductive CreateResult : Type where
  | saved (identity_id : Option String)
  | validationError (msg : String)
  | pyError (e : PyErr)
  deriving DecidableEq, Repr

/-- `OptInViewSet.perform_create` (views.py lines 221-234): when no identity
is supplied, call `Identity.objects.filter_by_addr(address_type, address)`
(two positional arguments) and demand exactly one match, raising the
`NotFound` / `Ambiguous` validation errors otherwise. -/
def optInPerformCreate (store : Store) (data : EventData) : CreateResult :=
  match data.identity with
  | none =>
    match callFilterByAddr store [data.address_type, data.address] with
    | Except.error e => CreateResult.pyError e
    | Except.ok identities =>
      if identities.length = 0 then
        CreateResult.validationError "There is no identity with this address."
      else if identities.length > 1 then
        CreateResult.validationError
          "There are multiple identities with this address."
      else CreateResult.saved ((identities.head?).map (fun i => i.1))
  | some i => CreateResult.saved (some i)

/-- `OptOutViewSet.perform_create` (views.py lines 244-257): identical locate
logic to `OptInViewSet.perform_create`. -/
def optOutPerformCreate (store : Store) (data : EventData) : CreateResult :=
  match data.identity with
  | none =>
    match callFilterByAddr store [data.address_type, data.address] with
    | Except.error e => CreateResult.pyError e
    | Except.ok identities =>
      if identities.length = 0 then
        CreateResult.validationError "There is no identity with this address."
      else if identities.length > 1 then
        CreateResult.validationError
          "There are multiple identities with this address."
      else CreateResult.saved ((identities.head?).map (fun i => i.1))
  | some i => CreateResult.saved (some i)

/-! ## Consent State Machine (spec §4.5)

The signal handlers `handle_optin` / `handle_optout` are imported by
tests.py from `identities.models` but their code is not part of the source
tree, so they are modelled from the spec below. -/

/-- Modelled from the spec: OptIn processing of §4.5 (`handle_optin` is
missing from the source tree).  Within
`addresses[optin.address_type][optin.address]` clear the `optedout` flag
(set it to false); no other field is touched; a missing address type or
address is a no-op per §7 (`Malformed`: flags on a non-existent key are not
materialized). -/
def applyOptIn (d : Details) (address_type address : String) : Details :=
  match getKey d "addresses" with
  | some (DValue.addrs addrs) =>
    match getKey addrs address_type with
    | some bucket =>
      match getKey bucket address with
      | some meta =>
        setKey d "addresses"
          (DValue.addrs (setKey addrs address_type
            (setKey bucket address (setKey meta "optedout" false))))
      | none => d
    | none => d
  | _ => d

/-- The `optout_type` enumeration of an OptOut event (spec §3). -/
inductive OptoutType : Type where
  | stop
  | stopall
  | forget
  deriving DecidableEq, Repr

/-- Apply `f` to the metadata of every address entry of a bucket. -/
def mapBucketMeta (f : Meta → Meta) (b : Bucket) : Bucket :=
  b.map (fun e => (e.1, f e.2))

/-- Apply `f` to the metadata of every address entry of every bucket. -/
def mapAddressesMeta (f : Meta → Meta) (a : Addresses) : Addresses :=
  a.map (fun t => (t.1, mapBucketMeta f t.2))

/-- Apply `f` to the metadata of every address entry anywhere in the
details document. -/
def mapDetailsMeta (f : Meta → Meta) (d : Details) : Details :=
  d.map (fun kv =>
    (kv.1,
      match kv.2 with
      | DValue.addrs a => DValue.addrs (mapAddressesMeta f a)
      | v => v))

/-- Modelled from the spec: OptOut processing of §4.5 (`handle_optout` is
missing from the source tree).  `stop` sets `optedout=true` on the single
named address (missing keys a no-op, §7); `stopall` sets `optedout=true` on
every address value of every bucket; `forget` reassigns every
previously-existing top-level detail key's value to the literal string
`"redacted"` and replaces the `addresses` value with an empty mapping. -/
def applyOptOut (d : Details) (optout_type : OptoutType)
    (address_type address : String) : Details :=
  match optout_type with
  | OptoutType.stop =>
    match getKey d "addresses" with
    | some (DValue.addrs addrs) =>
      match getKey addrs address_type with
      | some bucket =>
        match getKey bucket address with
        | some meta =>
          setKey d "addresses"
            (DValue.addrs (setKey addrs address_type
              (setKey bucket address (setKey meta "optedout" true))))
        | none => d
      | none => d
    | _ => d
  | OptoutType.stopall =>
    mapDetailsMeta (fun m => setKey m "optedout" true) d
  | OptoutType.forget =>
    d.map (fun kv =>
      (kv.1,
        if kv.1 = "addresses" then DValue.addrs [] else DValue.str "redacted"))

/-! ## Detail Key Indexer (spec §4.2, `DetailKeyView.get` in views.py) -/

/-- Modelled from the spec: `ObserveKeys` of §4.2 (the post-save observer
that populates the `DetailKey` table is missing from the source tree).
Every top-level key of a details document is added to the index exactly once
(idempotent upsert-if-absent). -/
def observeKeys (index : List String) (d : Details) : List String :=
  d.foldl (fun acc kv => if kv.1 ∈ acc then acc else acc ++ [kv.1]) index

/-- `DetailKeyView.get` (views.py lines 318-324): return the recorded key
names. -/
def listDetailKeys (index : List String) : List String :=
  index

/-- Erase one flag key from a metadata object ("as if the flag were
absent"). -/
def eraseFlag (m : Meta) (k : String) : Meta :=
  m.filter (fun kv => !decide (kv.1 = k))

/-! ## Association-list lemmas -/

theorem getKey_setKey_self {α : Type} (l : List (String × α)) (k : String)
    (v : α) : getKey (setKey l k v) k = some v := by
  induction l with
  | nil => simp [getKey, setKey]
  | cons hd tl ih =>
    obtain ⟨k', v'⟩ := hd
    by_cases h : k' = k
    · simp [setKey, getKey, h]
    · simp [setKey, getKey, h, ih]

theorem getKey_setKey_ne {α : Type} (l : List (String × α)) (k k' : String)
    (v : α) (h : k' ≠ k) : getKey (setKey l k v) k' = getKey l k' := by
  have hne : ¬k = k' := fun hh => h hh.symm
  induction l with
  | nil => simp [getKey, setKey, hne]
  | cons hd tl ih =>
    obtain ⟨k₀, v₀⟩ := hd
    by_cases h₀ : k₀ = k
    · subst h₀
      simp [setKey, getKey, hne]
    · simp [setKey, getKey, h₀, ih]

theorem getKey_map {α β : Type} (g : String → α → β) (l : List (String × α))
    (k : String) :
    getKey (l.map (fun kv => (kv.1, g kv.1 kv.2))) k =
      (getKey l k).map (g k) := by
  induction l with
  | nil => simp [getKey]
  | cons hd tl ih =>
    obtain ⟨k', v⟩ := hd
    by_cases h : k' = k
    · subst h
      simp [getKey]
    · simp [getKey, h, ih]

theorem getKey_some_of_mem_keys {α : Type} (l : List (String × α))
    (k : String) (h : k ∈ l.map Prod.fst) : ∃ v, getKey l k = some v := by
  induction l with
  | nil => simp at h
  | cons hd tl ih =>
    obtain ⟨k', v⟩ := hd
    by_cases hk : k' = k
    · exact ⟨v, by simp [getKey, hk]⟩
    · have : k ∈ tl.map Prod.fst := by
        rcases (by simpa using h) with h₁ | h₁
        · exact absurd h₁.symm hk
        · simpa using h₁
      obtain ⟨w, hw⟩ := ih this
      exact ⟨w, by simp [getKey, hk, hw]⟩

theorem filter_key_of_getKey_some {α : Type} (l : List (String × α))
    (k : String) (v : α) (hnd : (l.map Prod.fst).Nodup)
    (hget : getKey l k = some v) :
    l.filter (fun p => decide (p.1 = k)) = [(k, v)] := by
  induction l with
  | nil => simp [getKey] at hget
  | cons hd tl ih =>
    obtain ⟨k', v'⟩ := hd
    simp only [List.map_cons, List.nodup_cons] at hnd
    by_cases h : k' = k
    · subst h
      simp [getKey] at hget
      subst hget
      have htl : tl.filter (fun p => decide (p.1 = k')) = [] := by
        apply List.filter_eq_nil_iff.2
        intro p hp hcontra
        exact hnd.1 (by
          have : p.1 = k' := by simpa using hcontra
          exact this ▸ List.mem_map_of_mem Prod.fst hp)
      simp [List.filter, htl]
    · simp only [getKey, if_neg h] at hget
      have := ih hnd.2 hget
      simp [List.filter, h, this]

theorem filter_key_of_getKey_none {α : Type} (l : List (String × α))
    (k : String) (hget : getKey l k = none) :
    l.filter (fun p => decide (p.1 = k)) = [] := by
  induction l with
  | nil => simp
  | cons hd tl ih =>
    obtain ⟨k', v'⟩ := hd
    by_cases h : k' = k
    · simp [getKey, h] at hget
    · simp only [getKey, if_neg h] at hget
      simp [List.filter, h, ih hget]

theorem getKey_eraseFlag_ne (m : Meta) (x k : String) (h : k ≠ x) :
    getKey (eraseFlag m x) k = getKey m k := by
  induction m with
  | nil => simp [eraseFlag, getKey]
  | cons hd tl ih =>
    obtain ⟨k', v⟩ := hd
    by_cases hx : k' = x
    · have hk : ¬k' = k := fun hh => h (hh ▸ hx)
      have hdrop : eraseFlag ((k', v) :: tl) x = eraseFlag tl x := by
        simp [eraseFlag, hx]
      rw [hdrop, ih]
      simp [getKey, hk]
    · have hkeep : eraseFlag ((k', v) :: tl) x = (k', v) :: eraseFlag tl x := by
        simp [eraseFlag, hx]
      rw [hkeep]
      by_cases hk : k' = k
      · simp [getKey, hk]
      · simp [getKey, hk, ih]

theorem flagSet_eraseFlag_ne (m : Meta) (x k : String) (h : k ≠ x) :
    flagSet (eraseFlag m x) k = flagSet m k := by
  unfold flagSet
  rw [getKey_eraseFlag_ne m x k h]

/-- With distinct bucket keys, keeping the matching address-type bucket(s)
keeps exactly the bucket `getKey` finds. -/
theorem resolveAddresses_eq_resolveBucket (i : Identity) (T : String)
    (wd : Bool) (addrs : Addresses) (bucket : Bucket)
    (ha : getAddresses i.details = some addrs)
    (hnd : (addrs.map Prod.fst).Nodup) (hb : getKey addrs T = some bucket) :
    resolveAddresses i T wd = resolveBucket wd bucket := by
  simp only [resolveAddresses, ha]
  rw [filter_key_of_getKey_some addrs T bucket hnd hb]
  simp

/-- No entry of the scanned bucket that is flagged `optedout` is ever
appended to the response (the `break` may drop further entries as well, but
never lets the optedout entry itself through). -/
theorem optedout_notMem_resolveEntries (wd : Bool) (n : Nat) (bucket : Bucket)
    (a : String) (m : Meta) (hnd : (bucket.map Prod.fst).Nodup)
    (hmem : (a, m) ∈ bucket) (hflag : flagSet m "optedout" = true) :
    a ∉ resolveEntries wd n bucket := by
  induction bucket with
  | nil => simp at hmem
  | cons hd tl ih =>
    obtain ⟨b, mb⟩ := hd
    simp only [List.map_cons, List.nodup_cons] at hnd
    rcases List.mem_cons.1 hmem with heq | hmem'
    · cases heq
      simp [resolveEntries, hflag]
    · have hab : a ≠ b := by
        intro hh
        exact hnd.1 (hh ▸ List.mem_map_of_mem Prod.fst hmem')
    -- continues below
      have hrest := ih hnd.2 hmem'
      by_cases hob : flagSet mb "optedout" = true
      · simp [resolveEntries, hob]
      · unfold resolveEntries
        rw [if_neg hob]
        intro hin
        rcases List.mem_append.1 hin with h1 | h1
        · have hb' : a = b := by
            split_ifs at h1 <;> simp at h1 <;> exact h1
          exact hab hb'
        · exact hrest h1

/-! ## Claims -/

/-- Claim C8: `ResolveAddresses` called with an identity id that matches no
stored identity fails with `NotFound` (`Identity.DoesNotExist` from
`Identity.objects.get`), for every address type and every `want_default`. -/
theorem resolve_unknown_identity_notFound (store : Store)
    (identity_id address_type : String) (want_default : Bool)
    (h : getIdentity store identity_id = none) :
    identityAddressesList store identity_id address_type want_default =
      Except.error DBError.doesNotExist := by
  simp [identityAddressesList, h]

/-- Witness for C8: a store holding only `id-1`, queried for `id-2`. -/
theorem resolve_unknown_identity_notFound_witness :
    identityAddressesList [("id-1", [])] "id-2" "msisdn" true =
      Except.error DBError.doesNotExist :=
  resolve_unknown_identity_notFound [("id-1", [])] "id-2" "msisdn" true
    (by decide)

/-- Bucket with exactly one non-optedout entry but two entries in total:
the repository's own test `test_read_identity_addresses_two_with_optout`
fixes the result to `[]` for this shape. -/
def c2Bucket : Bucket := [("+27124", []), ("+27125", [("optedout", true)])]

/-- Identity holding `c2Bucket` under `msisdn`. -/
def c2Identity : Identity :=
  ⟨[("addresses", DValue.addrs [("msisdn", c2Bucket)])]⟩

/-- Claim C2 as stated is false on the source: the `msisdn` bucket of
`c2Identity` has exactly one non-optedout entry (`+27124`), yet
`ResolveAddresses(I, msisdn, want_default=true)` returns `[]`, because the
singleton rule tests `len(entries.keys()) > 1` on the raw bucket, counting
optedout entries, and `+27124` carries no `default` flag. -/
theorem single_survivor_not_returned_cex :
    (nonOptedOut c2Bucket).map Prod.fst = ["+27124"] ∧
    resolveAddresses c2Identity "msisdn" true = [] :=
  ⟨by decide, by decide⟩

/-- Claim C2 (amended): for every identity I and address type T such that
I's `addresses[T]` bucket contains exactly one entry and that entry is not
flagged `optedout=true`, `ResolveAddresses(I, T, want_default=true)` returns
exactly that entry's address value, regardless of whether that entry carries
the `default` flag. -/
theorem lone_entry_is_default (i : Identity) (T a : String) (m : Meta)
    (addrs : Addresses) (ha : getAddresses i.details = some addrs)
    (hnd : (addrs.map Prod.fst).Nodup) (hb : getKey addrs T = some [(a, m)])
    (hopt : flagSet m "optedout" = false) :
    resolveAddresses i T true = [a] := by
  rw [resolveAddresses_eq_resolveBucket i T true addrs [(a, m)] ha hnd hb]
  simp [resolveBucket, resolveEntries, hopt]

/-- Identity with one lone, unflagged msisdn address
(test `test_read_identity_addresses_one_no_default`). -/
def w2Identity : Identity :=
  ⟨[("addresses", DValue.addrs [("msisdn", [("+27124", [])])])]⟩

/-- Witness for the amended C2 at a concrete identity. -/
theorem lone_entry_is_default_witness :
    resolveAddresses w2Identity "msisdn" true = ["+27124"] :=
  lone_entry_is_default w2Identity "msisdn" "+27124" []
    [("msisdn", [("+27124", [])])] (by decide) (by decide) (by decide)
    (by decide)

/-- Bucket whose optedout entry is stored before a surviving entry. -/
def c3Bucket : Bucket := [("+27125", [("optedout", true)]), ("+27124", [])]

/-- Identity holding `c3Bucket` under `msisdn`. -/
def c3Identity : Identity :=
  ⟨[("addresses", DValue.addrs [("msisdn", c3Bucket)])]⟩

/-- Claim C3 fails on the source: with `want_default=false` and an optedout
entry stored before a surviving one, the surviving entry (`+27124`, the only
non-optedout entry) is NOT returned — the `break` in
`IdentityAddresses.get_queryset` ends the scan of the whole bucket at the
optedout entry instead of skipping just that entry. -/
theorem break_skips_later_survivors :
    (nonOptedOut c3Bucket).map Prod.fst = ["+27124"] ∧
    resolveAddresses c3Identity "msisdn" false = [] :=
  ⟨by decide, by decide⟩

/-- Bucket with two surviving entries (one flagged default) stored after an
optedout entry. -/
def c4Bucket : Bucket :=
  [("+27100", [("optedout", true)]), ("+27124", [("default", true)]),
   ("+27125", [])]

/-- Identity holding `c4Bucket` under `msisdn`. -/
def c4Identity : Identity :=
  ⟨[("addresses", DValue.addrs [("msisdn", c4Bucket)])]⟩

/-- Claim C4 fails on the source: the `msisdn` bucket of `c4Identity` has two
non-optedout entries of which exactly `+27124` is flagged `default=true`, yet
`ResolveAddresses(I, msisdn, want_default=true)` returns `[]` rather than
that subset — the `break` at the leading optedout entry ends the bucket scan
before any surviving entry is considered. -/
theorem default_subset_not_returned :
    (nonOptedOut c4Bucket).map Prod.fst = ["+27124", "+27125"] ∧
    ((nonOptedOut c4Bucket).filter
        (fun e => flagSet e.2 "default")).map Prod.fst = ["+27124"] ∧
    resolveAddresses c4Identity "msisdn" true = [] :=
  ⟨by decide, by decide, by decide⟩

/-- Claim C5: for every identity, address type and both values of
`want_default`, an address whose metadata is flagged `optedout=true` never
appears in the result of `ResolveAddresses` (key sets are those of Python
dicts, hence duplicate-free). -/
theorem optedout_never_resolved (i : Identity) (T : String) (wd : Bool)
    (addrs : Addresses) (bucket : Bucket) (a : String) (m : Meta)
    (ha : getAddresses i.details = some addrs)
    (hndA : (addrs.map Prod.fst).Nodup)
    (hb : getKey addrs T = some bucket)
    (hndB : (bucket.map Prod.fst).Nodup)
    (hmem : (a, m) ∈ bucket) (hflag : flagSet m "optedout" = true) :
    a ∉ resolveAddresses i T wd := by
  rw [resolveAddresses_eq_resolveBucket i T wd addrs bucket ha hndA hb]
  exact optedout_notMem_resolveEntries wd bucket.length bucket a m hndB hmem
    hflag

/-- Witness for C5 at a concrete identity. -/
theorem optedout_never_resolved_witness :
    "+27125" ∉ resolveAddresses
      ⟨[("addresses", DValue.addrs
          [("msisdn", [("+27125", [("optedout", true)]), ("+27124", [])])])]⟩
      "msisdn" true :=
  optedout_never_resolved
    ⟨[("addresses", DValue.addrs
        [("msisdn", [("+27125", [("optedout", true)]), ("+27124", [])])])]⟩
    "msisdn" true
    [("msisdn", [("+27125", [("optedout", true)]), ("+27124", [])])]
    [("+27125", [("optedout", true)]), ("+27124", [])]
    "+27125" [("optedout", true)]
    (by decide) (by decide) (by decide) (by decide) (by decide) (by decide)

/-- Claim C1 fails on the source: `OptInViewSet.perform_create` and
`OptOutViewSet.perform_create` call
`Identity.objects.filter_by_addr(address_type, address)` with two positional
arguments, but models.py defines `filter_by_addr(self, addr)` with one, so
every creation request without an explicit identity reference raises
`TypeError` — the `NotFound` / `Ambiguous` validation errors and the
single-match binding (asserted by the repository's own tests
`test_create_optin_with_address`, `test_create_optin_no_matching_address`,
`test_create_optin_multiple_matching_addresses` and their optout twins) are
unreachable. -/
theorem locate_by_address_always_type_error (store : Store)
    (data : EventData) (h : data.identity = none) :
    optInPerformCreate store data = CreateResult.pyError PyErr.typeError ∧
    optOutPerformCreate store data = CreateResult.pyError PyErr.typeError :=
  by simp [optInPerformCreate, optOutPerformCreate, h, callFilterByAddr]

/-- Witness for C1's failure at a concrete request: a store holding exactly
one identity with `addresses.msisdn.+27123`, and an optin / optout creation
request for that pair with no identity reference (the claim would demand a
successful bind). -/
theorem locate_by_address_always_type_error_witness :
    optInPerformCreate
        [("id-1", [("addresses", DValue.addrs [("msisdn", [("+27123", [])])])])]
        ⟨none, "msisdn", "+27123"⟩ = CreateResult.pyError PyErr.typeError ∧
    optOutPerformCreate
        [("id-1", [("addresses", DValue.addrs [("msisdn", [("+27123", [])])])])]
        ⟨none, "msisdn", "+27123"⟩ = CreateResult.pyError PyErr.typeError :=
  locate_by_address_always_type_error
    [("id-1", [("addresses", DValue.addrs [("msisdn", [("+27123", [])])])])]
    ⟨none, "msisdn", "+27123"⟩ rfl

/-- Redaction rewrites the value of a previously-existing key other than
`addresses` to the marker string. -/
theorem getKey_redacted_of_mem (d : Details) (k : String)
    (hk : ¬k = "addresses") (hmem : k ∈ d.map Prod.fst) :
    getKey (d.map (fun kv => (kv.1,
      if kv.1 = "addresses" then DValue.addrs [] else DValue.str "redacted")))
      k = some (DValue.str "redacted") := by
  induction d with
  | nil => simp at hmem
  | cons hd tl ih =>
    obtain ⟨k', v'⟩ := hd
    by_cases h : k' = k
    · subst h
      simp [getKey, hk]
    · have hmem' : k ∈ tl.map Prod.fst := by
        rcases (by simpa using hmem : k = k' ∨ k ∈ tl.map Prod.fst) with h₁ | h₁
        · exact absurd h₁.symm h
        · exact h₁
      simp [getKey, h, ih hmem']

/-- Redaction replaces a previously-existing `addresses` value with the
empty mapping. -/
theorem getKey_redacted_addresses (d : Details)
    (hmem : "addresses" ∈ d.map Prod.fst) :
    getKey (d.map (fun kv => (kv.1,
      if kv.1 = "addresses" then DValue.addrs [] else DValue.str "redacted")))
      "addresses" = some (DValue.addrs []) := by
  induction d with
  | nil => simp at hmem
  | cons hd tl ih =>
    obtain ⟨k', v'⟩ := hd
    by_cases h : k' = "addresses"
    · subst h
      simp [getKey]
    · have hmem' : "addresses" ∈ tl.map Prod.fst := by
        rcases (by simpa using hmem :
            "addresses" = k' ∨ "addresses" ∈ tl.map Prod.fst) with h₁ | h₁
        · exact absurd h₁.symm h
        · exact h₁
      simp [getKey, h, ih hmem']

/-- Claim C6 (the OptOut signal handler is modelled from the spec, §4.5):
applying an OptOut with `optout_type=forget` reassigns every
previously-existing top-level key of the details document to the string
`"redacted"` — the key set is preserved, only values are destroyed — and
replaces the `addresses` value with an empty mapping. -/
theorem optout_forget_redacts (d : Details) (T A : String) :
    ((applyOptOut d OptoutType.forget T A).map Prod.fst = d.map Prod.fst) ∧
    (∀ k, k ≠ "addresses" → k ∈ d.map Prod.fst →
      getKey (applyOptOut d OptoutType.forget T A) k =
        some (DValue.str "redacted")) ∧
    ("addresses" ∈ d.map Prod.fst →
      getKey (applyOptOut d OptoutType.forget T A) "addresses" =
        some (DValue.addrs [])) := by
  refine ⟨?_, ?_, ?_⟩
  · simp [applyOptOut]
  · intro k hk hmem
    exact getKey_redacted_of_mem d k hk hmem
  · intro hmem
    exact getKey_redacted_addresses d hmem

/-- The details document of the identity used by the repository's
`test_optout_webhook_combination`. -/
def c6Details : Details :=
  [("name", DValue.str "Test Name 1"),
   ("default_addr_type", DValue.str "msisdn"),
   ("personnel_code", DValue.str "12345"),
   ("addresses", DValue.addrs
     [("msisdn", [("+27123", [])]),
      ("email", [("foo1@bar.com", [("default", true)]),
                 ("foo2@bar.com", [])])])]

/-- Witness for C6 at the concrete identity of the repository's test. -/
theorem optout_forget_redacts_witness :
    getKey (applyOptOut c6Details OptoutType.forget "msisdn" "+27123")
      "personnel_code" = some (DValue.str "redacted") ∧
    getKey (applyOptOut c6Details OptoutType.forget "msisdn" "+27123")
      "addresses" = some (DValue.addrs []) :=
  ⟨(optout_forget_redacts c6Details "msisdn" "+27123").2.1 "personnel_code"
      (by decide) (by decide),
   (optout_forget_redacts c6Details "msisdn" "+27123").2.2 (by decide)⟩

/-- Claim C7 (the OptIn signal handler is modelled from the spec, §4.5):
applying an OptIn for the pair (T, A) sets the `optedout` flag to false on
exactly `addresses[T][A]`, and leaves every other address entry in every
bucket and every other field of the details document unchanged. -/
theorem optin_clears_only_target (d : Details) (T A : String)
    (addrs : Addresses) (bucket : Bucket) (m : Meta)
    (ha : getKey d "addresses" = some (DValue.addrs addrs))
    (hb : getKey addrs T = some bucket)
    (hm : getKey bucket A = some m) :
    (metaAt (applyOptIn d T A) T A = some (setKey m "optedout" false) ∧
      flagSet (setKey m "optedout" false) "optedout" = false) ∧
    (∀ Tx Ax, ¬(Tx = T ∧ Ax = A) →
      metaAt (applyOptIn d T A) Tx Ax = metaAt d Tx Ax) ∧
    (∀ k, k ≠ "addresses" → getKey (applyOptIn d T A) k = getKey d k) := by
  have happ : applyOptIn d T A =
      setKey d "addresses" (DValue.addrs (setKey addrs T
        (setKey bucket A (setKey m "optedout" false)))) := by
    simp [applyOptIn, ha, hb, hm]
  have hgad : getAddresses d = some addrs := by simp [getAddresses, ha]
  have hga : getAddresses (applyOptIn d T A) =
      some (setKey addrs T (setKey bucket A (setKey m "optedout" false))) := by
    simp [getAddresses, happ, getKey_setKey_self]
  refine ⟨⟨?_, ?_⟩, ?_, ?_⟩
  · simp [metaAt, bucketAt, hga, getKey_setKey_self]
  · simp [flagSet, getKey_setKey_self]
  · intro Tx Ax hne
    by_cases hT : Tx = T
    · subst hT
      have hAx : ¬Ax = A := fun hh => hne ⟨rfl, hh⟩
      simp [metaAt, bucketAt, hga, hgad, getKey_setKey_self, hb,
        getKey_setKey_ne bucket A Ax (setKey m "optedout" false) hAx]
    · simp [metaAt, bucketAt, hga, hgad,
        getKey_setKey_ne addrs T Tx
          (setKey bucket A (setKey m "optedout" false)) hT]
  · intro k hk
    rw [happ]
    exact getKey_setKey_ne d "addresses" k
      (DValue.addrs (setKey addrs T
        (setKey bucket A (setKey m "optedout" false)))) hk

/-- The details document of the identity used by the repository's
`test_optin` (its msisdn address previously opted out). -/
def c7Details : Details :=
  [("name", DValue.str "Test Name 1"),
   ("default_addr_type", DValue.str "msisdn"),
   ("personnel_code", DValue.str "12345"),
   ("addresses", DValue.addrs
     [("msisdn", [("+27123", [("optedout", true)])]),
      ("email", [("foo1@bar.com", [("default", true)]),
                 ("foo2@bar.com", [])])])]

/-- Witness for C7 at the concrete identity of the repository's test: the
target entry's `optedout` flag is cleared, an entry of another bucket and a
non-address detail key are untouched. -/
theorem optin_clears_only_target_witness :
    metaAt (applyOptIn c7Details "msisdn" "+27123") "msisdn" "+27123" =
      some (setKey [("optedout", true)] "optedout" false) ∧
    metaAt (applyOptIn c7Details "msisdn" "+27123") "email" "foo1@bar.com" =
      metaAt c7Details "email" "foo1@bar.com" ∧
    getKey (applyOptIn c7Details "msisdn" "+27123") "name" =
      getKey c7Details "name" :=
  ⟨(optin_clears_only_target c7Details "msisdn" "+27123"
      [("msisdn", [("+27123", [("optedout", true)])]),
       ("email", [("foo1@bar.com", [("default", true)]), ("foo2@bar.com", [])])]
      [("+27123", [("optedout", true)])] [("optedout", true)]
      (by decide) (by decide) (by decide)).1.1,
   (optin_clears_only_target c7Details "msisdn" "+27123"
      [("msisdn", [("+27123", [("optedout", true)])]),
       ("email", [("foo1@bar.com", [("default", true)]), ("foo2@bar.com", [])])]
      [("+27123", [("optedout", true)])] [("optedout", true)]
      (by decide) (by decide) (by decide)).2.1 "email" "foo1@bar.com"
      (by decide),
   (optin_clears_only_target c7Details "msisdn" "+27123"
      [("msisdn", [("+27123", [("optedout", true)])]),
       ("email", [("foo1@bar.com", [("default", true)]), ("foo2@bar.com", [])])]
      [("+27123", [("optedout", true)])] [("optedout", true)]
      (by decide) (by decide) (by decide)).2.2 "name" (by decide)⟩

/-- Claim C9 (the DetailKey post-save observer is modelled from the spec,
§4.2): after observing identities whose top-level detail key sets are
{A, B} and {B, C}, `ListDetailKeys` returns {A, B, C} — an idempotent,
deduplicated union, each key recorded exactly once no matter how many
identities share it. -/
theorem detail_keys_idempotent_union (A B C : String) (vA vB vB2 vC : DValue)
    (hAB : A ≠ B) (hBC : B ≠ C) (hAC : A ≠ C) :
    listDetailKeys (observeKeys (observeKeys [] [(A, vA), (B, vB)])
      [(B, vB2), (C, vC)]) = [A, B, C] := by
  simp [observeKeys, listDetailKeys, hAB, hBC, hAC,
    Ne.symm hAB, Ne.symm hBC, Ne.symm hAC]

/-- Witness for C9 with the key sets of the repository's
`test_create_identity_detailkeys_two_new` fixture (restricted to three
keys). -/
theorem detail_keys_idempotent_union_witness :
    listDetailKeys (observeKeys (observeKeys []
        [("name", DValue.str "as"), ("default_addr_type", DValue.str "msisdn")])
        [("default_addr_type", DValue.str "msisdn"),
         ("fresh", DValue.str "daisy")]) =
      ["name", "default_addr_type", "fresh"] :=
  detail_keys_idempotent_union "name" "default_addr_type" "fresh"
    (DValue.str "as") (DValue.str "msisdn") (DValue.str "msisdn")
    (DValue.str "daisy") (by decide) (by decide) (by decide)

/-- `getAddresses` of a details document whose metadata objects were all
rewritten by `f`: the addresses value is rewritten bucket-wise. -/
theorem getAddresses_mapDetailsMeta (f : Meta → Meta) (d : Details) :
    getAddresses (mapDetailsMeta f d) =
      (getAddresses d).map (mapAddressesMeta f) := by
  induction d with
  | nil => rfl
  | cons hd tl ih =>
    obtain ⟨k, v⟩ := hd
    by_cases hk : k = "addresses"
    · subst hk
      cases v <;> simp [getAddresses, mapDetailsMeta, getKey]
    · simp only [mapDetailsMeta, List.map_cons] at ih ⊢
      simp [getAddresses, getKey, hk] at ih ⊢
      exact ih

/-- Filtering buckets by address type commutes with rewriting metadata. -/
theorem filter_mapAddressesMeta (f : Meta → Meta) (a : Addresses)
    (T : String) :
    (mapAddressesMeta f a).filter (fun b => decide (b.1 = T)) =
      mapAddressesMeta f (a.filter (fun b => decide (b.1 = T))) := by
  induction a with
  | nil => rfl
  | cons hd tl ih =>
    obtain ⟨k, bk⟩ := hd
    simp only [mapAddressesMeta, List.map_cons] at ih ⊢
    by_cases hk : k = T
    · simp [List.filter, hk, ih]
    · simp [List.filter, hk, ih]

/-- The bucket scan reads metadata only through the `optedout` and
`default` flags, so erasing `inactive` from every entry changes nothing. -/
theorem resolveEntries_eraseInactive (wd : Bool) (n : Nat) (b : Bucket) :
    resolveEntries wd n (mapBucketMeta (fun m => eraseFlag m "inactive") b) =
      resolveEntries wd n b := by
  induction b with
  | nil => rfl
  | cons hd tl ih =>
    obtain ⟨a, m⟩ := hd
    simp only [mapBucketMeta, List.map_cons] at ih ⊢
    simp only [resolveEntries,
      flagSet_eraseFlag_ne m "inactive" "optedout" (by decide),
      flagSet_eraseFlag_ne m "inactive" "default" (by decide), ih]

/-- One bucket resolves the same with `inactive` flags erased. -/
theorem resolveBucket_eraseInactive (wd : Bool) (b : Bucket) :
    resolveBucket wd (mapBucketMeta (fun m => eraseFlag m "inactive") b) =
      resolveBucket wd b := by
  have hlen : (mapBucketMeta (fun m => eraseFlag m "inactive") b).length =
      b.length := by
    simp [mapBucketMeta]
  unfold resolveBucket
  rw [hlen]
  exact resolveEntries_eraseInactive wd b.length b

/-- All kept buckets resolve the same with `inactive` flags erased. -/
theorem mapBuckets_resolve_eraseInactive (wd : Bool) (l : Addresses) :
    (mapAddressesMeta (fun m => eraseFlag m "inactive") l).map
        (fun b => resolveBucket wd b.2) =
      l.map (fun b => resolveBucket wd b.2) := by
  induction l with
  | nil => rfl
  | cons hd tl ih =>
    simp only [mapAddressesMeta, List.map_cons] at ih ⊢
    rw [ih, resolveBucket_eraseInactive]

/-- Claim C10: `ResolveAddresses` never consults the `inactive` flag —
erasing the `inactive` key from every address metadata object of the
identity leaves the result unchanged, for every address type and both
values of `want_default`. -/
theorem inactive_never_consulted (i : Identity) (T : String) (wd : Bool) :
    resolveAddresses
        ⟨mapDetailsMeta (fun m => eraseFlag m "inactive") i.details⟩ T wd =
      resolveAddresses i T wd := by
  unfold resolveAddresses
  rw [show (Identity.mk (mapDetailsMeta (fun m => eraseFlag m "inactive")
      i.details)).details =
    mapDetailsMeta (fun m => eraseFlag m "inactive") i.details from rfl]
  rw [getAddresses_mapDetailsMeta]
  cases hga : getAddresses i.details with
  | none => rfl
  | some addrs =>
    simp only [Option.map_some']
    rw [filter_mapAddressesMeta, mapBuckets_resolve_eraseInactive]

end SeedIdStore
